import Mathlib

/-!
Verification of the Behavioral Affinity and Decision Engine.

Shallow embedding of the batch scoring job, the affinity store, the garbage
collector (agentic_tools/interest_score.py) and the two decision engines
(agentic_tools/recommendation_system/predictive_engine.py and
prescriptive_engine.py).  Python floats are modelled as real numbers; database
NULL is modelled with Option; SQL rows of the product_recommendations table
are modelled as an association list keyed by the composite primary key.
-/

noncomputable section

/-! ### Configuration constants (interest_score.py, lines 14-24) -/

def HALF_LIFE_DAYS : ℝ := 7.0

def SCORE_THRESHOLD : ℝ := 0.01

def SCORING_K_FACTOR : ℝ := 100.0

def DUMMY_JOURNEY_MAP_ID : String := "default_journey_map"

def DUMMY_JOURNEY_STAGE_ID : String := "default_stage"

def DUMMY_REC_MODEL : String := "default_model"

/-! ### Affinity store model (table product_recommendations)

Composite primary key: (tenant_id, profile_id, product_id, journey_map_id,
journey_stage_id, recommendation_model), per the ON CONFLICT clause of the
upsert (interest_score.py line 230). -/

structure RecKey where
  tenant_id : String
  profile_id : String
  product_id : String
  journey_map_id : String
  journey_stage_id : String
  recommendation_model : String
deriving DecidableEq

/-- The columns of product_recommendations that the batch job and the GC read
or write.  All three are nullable in the schema: the batch job guards
raw_score against NULL (line 189) and last_interaction_at against NULL
(line 197); timestamps are modelled as real-valued seconds. -/
structure RecRow where
  raw_score : Option ℝ
  interest_score : Option ℝ
  last_interaction_at : Option ℝ

/-- The store: at most one row per composite key (primary-key uniqueness). -/
abbrev Store := List (RecKey × RecRow)

/-- SELECT ... WHERE all six PK columns match (interest_score.py lines 172-182). -/
def findRecord : Store → RecKey → Option RecRow
  | [], _ => none
  | kr :: rest, k => if kr.1 = k then some kr.2 else findRecord rest k

/-- INSERT ... ON CONFLICT (full composite key) DO UPDATE SET raw_score,
interest_score, last_interaction_at (interest_score.py lines 213-236): the
conflicting row, if any, is overwritten in place, otherwise a fresh row is
inserted.  updated_at (wall-clock NOW()) is not modelled. -/
def upsertScore : Store → RecKey → ℝ → ℝ → ℝ → Store
  | [], k, raw, interest, lastAt => [(k, ⟨some raw, some interest, some lastAt⟩)]
  | kr :: rest, k, raw, interest, lastAt =>
    if kr.1 = k then (k, ⟨some raw, some interest, some lastAt⟩) :: rest
    else kr :: upsertScore rest k raw interest lastAt

/-- Raw score stored at a key (NULL-transparent). -/
def rawAt (store : Store) (k : RecKey) : Option ℝ :=
  (findRecord store k).bind (fun r => r.raw_score)

/-- Interest score stored at a key (NULL-transparent). -/
def interestAt (store : Store) (k : RecKey) : Option ℝ :=
  (findRecord store k).bind (fun r => r.interest_score)

/-! ### Decay scoring (interest_score.py lines 184-209) -/

/-- One aggregated (profile, subject) pair as returned by the event
aggregation query: incoming summed points and the latest event time. -/
structure BatchEntry where
  profile_id : String
  ticker : String
  points : ℝ
  last_seen : ℝ

/-- The raw-score computation of the batch job for one entry
(interest_score.py lines 184-206).  With a prior record: the stored raw score
(NULL read as 0.0, line 189) is decayed by 0.5 ** (elapsed days clamped at
0 / half-life) measured from the stored last_interaction_at (a NULL prior
timestamp is replaced by the incoming event time, line 198), then the incoming
points are added.  Without a prior record the incoming points stand alone. -/
def computeFinalRawScore (record : Option RecRow) (incoming_points last_event_time : ℝ) : ℝ :=
  match record with
  | none => incoming_points
  | some r =>
    let current_raw := r.raw_score.getD 0
    let prev_interaction := r.last_interaction_at.getD last_event_time
    let days_elapsed := max ((last_event_time - prev_interaction) / 86400) 0
    let decay_factor := (0.5 : ℝ) ^ (days_elapsed / HALF_LIFE_DAYS)
    current_raw * decay_factor + incoming_points

/-- Normalization (interest_score.py line 209): raw / (raw + K). -/
def normalizeScore (raw : ℝ) : ℝ := raw / (raw + SCORING_K_FACTOR)

/-- The composite key the batch job writes for an aggregated pair
(interest_score.py lines 238-241). -/
def entryKey (tenant_uuid : String) (entry : BatchEntry) : RecKey :=
  ⟨tenant_uuid, entry.profile_id, entry.ticker,
    DUMMY_JOURNEY_MAP_ID, DUMMY_JOURNEY_STAGE_ID, DUMMY_REC_MODEL⟩

/-- One iteration of the upsert loop of run_batch_scoring_job
(interest_score.py lines 163-242): look up the prior row by full composite
key, apply decay + increment, normalize, upsert. -/
def processEntry (tenant_uuid : String) (store : Store) (entry : BatchEntry) : Store :=
  let k := entryKey tenant_uuid entry
  let record := findRecord store k
  let final_raw_score := computeFinalRawScore record entry.points entry.last_seen
  let final_interest_score := normalizeScore final_raw_score
  upsertScore store k final_raw_score final_interest_score entry.last_seen

/-! ### Store lemmas -/

theorem findRecord_upsertScore_self (store : Store) (k : RecKey) (raw interest lastAt : ℝ) :
    findRecord (upsertScore store k raw interest lastAt) k =
      some ⟨some raw, some interest, some lastAt⟩ := by
  induction store with
  | nil => simp [upsertScore, findRecord]
  | cons kr rest ih =>
    by_cases h : kr.1 = k
    · simp [upsertScore, findRecord, h]
    · simp [upsertScore, findRecord, h, ih]

theorem findRecord_processEntry_self (tenant_uuid : String) (store : Store) (entry : BatchEntry) :
    findRecord (processEntry tenant_uuid store entry) (entryKey tenant_uuid entry) =
      some ⟨some (computeFinalRawScore (findRecord store (entryKey tenant_uuid entry))
              entry.points entry.last_seen),
            some (normalizeScore (computeFinalRawScore
              (findRecord store (entryKey tenant_uuid entry)) entry.points entry.last_seen)),
            some entry.last_seen⟩ := by
  simp [processEntry, findRecord_upsertScore_self]

/-! ### Garbage collection (interest_score.py lines 254-267)

DELETE FROM product_recommendations WHERE interest_score < threshold.
A row survives iff the SQL predicate is not satisfied; per SQL three-valued
logic, a NULL interest_score does not satisfy the predicate and the row is
kept. -/

/-- Whether the DELETE predicate leaves the row in place. -/
def gcKeeps (row : RecRow) : Bool :=
  match row.interest_score with
  | none => true
  | some v => ! decide (v < SCORE_THRESHOLD)

def run_garbage_collection (store : Store) : Store :=
  store.filter (fun kr => gcKeeps kr.2)

/-! ### Whole-job control flow (interest_score.py lines 145-251)

run_batch_scoring_job resolves ids, fetches the aggregates, and folds the
upsert loop over them inside one transaction.  The function body sits in a
try block whose except clause rolls the transaction back and logs — it does
not re-raise — and the function has no return value.  External effects are
passed in as parameters: the outcome of resolve_ids (which raises ValueError
as an Except.error), the aggregation fetch, and whether the persistence layer
succeeds (persist_ok = false models any mid-run write failure, which aborts
the transaction so the pre-run store survives the rollback). -/

structure JobResult where
  store : Store
  raised : Option String
  returned : Option Int

def run_batch_scoring_job (resolve_result : Except String (String × String))
    (fetch : String → List BatchEntry) (persist_ok : Bool) (store : Store) : JobResult :=
  match resolve_result with
  | Except.error _ => ⟨store, none, none⟩
  | Except.ok (tenant_uuid, segment_uuid) =>
    let batch_data := fetch segment_uuid
    if batch_data.isEmpty then ⟨store, none, none⟩
    else if persist_ok then ⟨batch_data.foldl (processEntry tenant_uuid) store, none, none⟩
    else ⟨store, none, none⟩

/-! ### Predictive Engine (recommendation_system/predictive_engine.py) -/

def PERSONA_ACTIVE_TRADER : String := "High-Frequency Traders"

/-- predict_user_event (predictive_engine.py lines 28-72): four score tiers,
with a persona split and a confidence boost in the top tier. -/
def predict_user_event (score : ℝ) (segment_names : List String) : String × ℝ :=
  let is_active_trader := PERSONA_ACTIVE_TRADER ∈ segment_names
  if score ≥ 0.7 then
    let confidence : ℝ := if score ≥ 0.9 then 0.95 else 0.85
    if is_active_trader then ("order-created", confidence)
    else ("ticker-view", confidence)
  else if score ≥ 0.5 then ("watchlist-add", 0.70)
  else if score ≥ 0.1 then ("search", 0.60)
  else ("ignore-content", 0.90)

/-! ### Prescriptive Engine (recommendation_system/prescriptive_engine.py) -/

/-- The human-readable reason strings of recommend_system_action, abstracted
to a tagged type: the first four branches return fixed strings, the fall
through branch interpolates the score into its message (prescriptive_engine.py
line 90). -/
inductive NbaReason where
  | nudgeOrder : NbaReason
  | sendReport : NbaReason
  | suggestWatchlist : NbaReason
  | discoveryNudge : NbaReason
  | scoreTooLow : ℝ → NbaReason
deriving DecidableEq

/-- recommend_system_action (prescriptive_engine.py lines 27-91): a string
comparison chain on the predicted event with an unconditional final return. -/
def recommend_system_action (score : ℝ) (predicted_event : String) :
    String × String × ℝ × NbaReason :=
  if predicted_event = "order-created" then
    ("STRONG_BUY_ALERT", "PUSH_NOTIFICATION", 0.95, NbaReason.nudgeOrder)
  else if predicted_event = "ticker-view" then
    ("SEND_ANALYST_REPORT", "EMAIL_DIGEST", 0.85, NbaReason.sendReport)
  else if predicted_event = "watchlist-add" then
    ("WATCHLIST_SUGGESTION", "IN_APP_BANNER", 0.70, NbaReason.suggestWatchlist)
  else if predicted_event = "search" then
    ("DISCOVERY_NUDGE", "IN_APP_FEED", 0.50, NbaReason.discoveryNudge)
  else
    ("WAIT", "NONE", 0.0, NbaReason.scoreTooLow score)

/-! ### Event aggregation (interest_score.py lines 80-142)

The AQL query in get_batch_scoring_data: scan cdp_trackingevent for events in
the half-open window, require a present, non-null, non-empty
eventData.instrument_id, join to the profile by fingerprintId, filter the
profile by segment membership, join to cdp_eventmetric by event name, then
COLLECT by (profile key, instrument_id) with SUM(metric.score) and
MAX(event.createdAt).  ISO-8601 timestamps compare chronologically, so they
are modelled as real numbers. -/

/-- A JSON attribute that may be absent from the document, null, or a string:
the three cases the AQL filters HAS(...), != null and != "" distinguish. -/
inductive AttrVal where
  | missing : AttrVal
  | null : AttrVal
  | str : String → AttrVal
deriving DecidableEq

structure TrackingEvent where
  createdAt : ℝ
  fingerprintId : String
  metricName : String
  instrument_id : AttrVal

structure CdpProfile where
  profile_key : String
  fingerprintId : String
  inSegments : List String

structure EventMetric where
  eventName : String
  score : ℝ

/-- FILTER HAS(event.eventData, 'instrument_id') AND instrument_id != null
AND instrument_id != "" (interest_score.py lines 97-99). -/
def subjectPresent (a : AttrVal) : Prop :=
  ∃ s, a = AttrVal.str s ∧ s ≠ ""

instance : (a : AttrVal) → Decidable (subjectPresent a)
  | AttrVal.missing => isFalse (by rintro ⟨s, h, _⟩; cases h)
  | AttrVal.null => isFalse (by rintro ⟨s, h, _⟩; cases h)
  | AttrVal.str s =>
    if h : s = "" then
      isFalse (by rintro ⟨t, ht, hne⟩; cases ht; exact hne h)
    else isTrue ⟨s, rfl, h⟩

/-- The three event-level filters: window membership (start inclusive, end
exclusive) and a present, non-null, non-empty instrument_id. -/
def eventQualifies (start_time end_time : ℝ) (e : TrackingEvent) : Prop :=
  start_time ≤ e.createdAt ∧ e.createdAt < end_time ∧ subjectPresent e.instrument_id

instance (start_time end_time : ℝ) (e : TrackingEvent) :
    Decidable (eventQualifies start_time end_time e) :=
  inferInstanceAs (Decidable
    (start_time ≤ e.createdAt ∧ e.createdAt < end_time ∧ subjectPresent e.instrument_id))

/-- The subject string of a qualifying event. -/
def tickerOf (e : TrackingEvent) : String :=
  match e.instrument_id with
  | AttrVal.str s => s
  | _ => ""

/-- One row of the three-way join before grouping. -/
structure ScoredRow where
  pid : String
  ticker : String
  score : ℝ
  createdAt : ℝ
deriving DecidableEq

/-- The nested FOR loops of the AQL query: qualifying events, joined to
profiles by fingerprint and segment membership, joined to metrics by event
name. -/
def joinedRows (start_time end_time : ℝ) (segment_id : String)
    (events : List TrackingEvent) (profiles : List CdpProfile)
    (metrics : List EventMetric) : List ScoredRow :=
  (events.filter (fun e => decide (eventQualifies start_time end_time e))).flatMap (fun e =>
    (profiles.filter (fun p =>
        decide (p.fingerprintId = e.fingerprintId ∧ segment_id ∈ p.inSegments))).flatMap (fun p =>
      (metrics.filter (fun m => decide (m.eventName = e.metricName))).map (fun m =>
        ⟨p.profile_key, tickerOf e, m.score, e.createdAt⟩)))

/-- MAX over a group (groups produced by the COLLECT are nonempty). -/
def listMax : List ℝ → ℝ
  | [] => 0
  | x :: xs => xs.foldl max x

/-- The COLLECT ... AGGREGATE clause: group the joined rows by
(profile key, ticker), summing scores and taking the latest timestamp. -/
def aggregatePairs (rows : List ScoredRow) : List BatchEntry :=
  ((rows.map (fun r => (r.pid, r.ticker))).dedup).map (fun k =>
    let group := rows.filter (fun r => decide ((r.pid, r.ticker) = k))
    ⟨k.1, k.2, (group.map (fun r => r.score)).sum,
      listMax (group.map (fun r => r.createdAt))⟩)

/-- get_batch_scoring_data (interest_score.py lines 80-142), with the three
ArangoDB collections passed in as lists. -/
def get_batch_scoring_data (start_time end_time : ℝ) (segment_id : String)
    (events : List TrackingEvent) (profiles : List CdpProfile)
    (metrics : List EventMetric) : List BatchEntry :=
  aggregatePairs (joinedRows start_time end_time segment_id events profiles metrics)

/-! ## Claims -/

/-- C1: for every aggregated pair folded into the store by the batch scoring
job, when a prior record exists with raw score prior_raw and timestamp
prior_time, the new raw score equals
prior_raw * 0.5 ^ (max((incoming_time - prior_time) in days, 0) / 7)
+ incoming_score, and when no prior record exists the new raw score equals
incoming_score. -/
theorem c1_batch_decay_formula (tenant_uuid : String) (store : Store) (entry : BatchEntry) :
    (∀ (prior_raw prior_time : ℝ) (pi : Option ℝ),
        findRecord store (entryKey tenant_uuid entry) =
            some ⟨some prior_raw, pi, some prior_time⟩ →
        rawAt (processEntry tenant_uuid store entry) (entryKey tenant_uuid entry) =
          some (prior_raw *
              (0.5 : ℝ) ^ (max ((entry.last_seen - prior_time) / 86400) 0 / HALF_LIFE_DAYS)
            + entry.points)) ∧
    (findRecord store (entryKey tenant_uuid entry) = none →
        rawAt (processEntry tenant_uuid store entry) (entryKey tenant_uuid entry) =
          some entry.points) := by
  constructor
  · intro prior_raw prior_time pi h
    simp only [rawAt, findRecord_processEntry_self, h, Option.bind]
    simp [computeFinalRawScore]
  · intro h
    simp only [rawAt, findRecord_processEntry_self, h, Option.bind]
    simp [computeFinalRawScore]

/-- C1 witness: the spec scenario — prior raw score 100 at time 0, incoming
score 0 exactly 7 days (604800 seconds) later — yields raw score 50, and the
interest score of raw 50 is 50/150. -/
theorem c1_batch_decay_formula_witness :
    rawAt (processEntry "t"
        [(entryKey "t" ⟨"p", "XYZ", 0, 604800⟩, ⟨some 100, some (1/3), some 0⟩)]
        ⟨"p", "XYZ", 0, 604800⟩) (entryKey "t" ⟨"p", "XYZ", 0, 604800⟩) = some 50
      ∧ normalizeScore 50 = 50 / 150 := by
  constructor
  · have h := (c1_batch_decay_formula "t"
        [(entryKey "t" ⟨"p", "XYZ", 0, 604800⟩, ⟨some 100, some (1/3), some 0⟩)]
        ⟨"p", "XYZ", 0, 604800⟩).1 100 0 (some (1/3)) (by simp [findRecord])
    rw [h]
    have h1 : ((604800 : ℝ) - 0) / 86400 = 7 := by norm_num
    rw [show (⟨"p", "XYZ", 0, 604800⟩ : BatchEntry).last_seen = (604800 : ℝ) from rfl,
      show (⟨"p", "XYZ", 0, 604800⟩ : BatchEntry).points = (0 : ℝ) from rfl, h1]
    have h2 : max (7 : ℝ) 0 = 7 := by rw [max_eq_left]; norm_num
    rw [h2]
    have h3 : (7 : ℝ) / HALF_LIFE_DAYS = 1 := by norm_num [HALF_LIFE_DAYS]
    rw [h3, Real.rpow_one]
    norm_num
  · norm_num [normalizeScore, SCORING_K_FACTOR]

/-- C2 counterexample: applying the same incoming aggregate (score 5, event
time 0) twice — as a re-run of the batch over the same window does — doubles
the raw score from 5 to 10 instead of leaving it unchanged: the upsert loop
re-adds the incoming points even though the stored last_interaction_at equals
the incoming event time (decay factor 1). -/
theorem c2_replay_counterexample :
    rawAt (processEntry "t" [] ⟨"p", "X", 5, 0⟩) (entryKey "t" ⟨"p", "X", 5, 0⟩) = some 5
    ∧ rawAt (processEntry "t" (processEntry "t" [] ⟨"p", "X", 5, 0⟩) ⟨"p", "X", 5, 0⟩)
        (entryKey "t" ⟨"p", "X", 5, 0⟩) = some 10 := by
  have hinner : findRecord (processEntry "t" [] ⟨"p", "X", 5, 0⟩)
      (entryKey "t" ⟨"p", "X", 5, 0⟩) =
      some ⟨some 5, some (normalizeScore 5), some 0⟩ := by
    rw [findRecord_processEntry_self]
    simp [findRecord, computeFinalRawScore]
  constructor
  · simp only [rawAt, hinner, Option.bind]
  · simp only [rawAt, findRecord_processEntry_self, hinner, Option.bind]
    simp [computeFinalRawScore, HALF_LIFE_DAYS, Real.rpow_zero]
    norm_num

/-- C2 amended: re-applying the same incoming aggregate (same incoming score
and same last event time) to an existing record whose last_interaction_at
equals that event time sets raw_score to prior_raw + incoming_score — the
incoming points are re-added (double-counted) — so the replay leaves
raw_score unchanged only when the incoming aggregate score is 0. -/
theorem c2_replay_adds_points (tenant_uuid : String) (store : Store) (entry : BatchEntry)
    (prior_raw : ℝ) (pi : Option ℝ)
    (h : findRecord store (entryKey tenant_uuid entry) =
        some ⟨some prior_raw, pi, some entry.last_seen⟩) :
    rawAt (processEntry tenant_uuid store entry) (entryKey tenant_uuid entry) =
      some (prior_raw + entry.points)
    ∧ (entry.points = 0 →
        rawAt (processEntry tenant_uuid store entry) (entryKey tenant_uuid entry) =
          some prior_raw) := by
  have key : rawAt (processEntry tenant_uuid store entry) (entryKey tenant_uuid entry) =
      some (prior_raw + entry.points) := by
    simp only [rawAt, findRecord_processEntry_self, h, Option.bind]
    simp [computeFinalRawScore, sub_self, Real.rpow_zero]
  refine ⟨key, fun hp => ?_⟩
  rw [key, hp, add_zero]

/-- C2 witness: prior raw 7 at time 3, incoming aggregate (score 2, time 3):
the second application stores raw 9. -/
theorem c2_replay_adds_points_witness :
    rawAt (processEntry "u" [(entryKey "u" ⟨"p", "X", 2, 3⟩, ⟨some 7, none, some 3⟩)]
        ⟨"p", "X", 2, 3⟩) (entryKey "u" ⟨"p", "X", 2, 3⟩) = some 9 := by
  have h := (c2_replay_adds_points "u"
      [(entryKey "u" ⟨"p", "X", 2, 3⟩, ⟨some 7, none, some 3⟩)]
      ⟨"p", "X", 2, 3⟩ 7 none (by simp [findRecord])).1
  rw [h]
  norm_num

/-- C3 counterexample: at score 0.6 with the high-frequency persona the
Predictive Engine returns the monitoring-type pair ("watchlist-add", 0.70),
not an execution-type event — the persona split only applies from score 0.7
up — and even at 0.75 with the persona the probability is 0.85, below 0.9;
the prescribed action at 0.6 is the watchlist suggestion on the in-app
banner, not the strong-intent push nudge. -/
theorem c3_counterexample :
    predict_user_event 0.6 [PERSONA_ACTIVE_TRADER] = ("watchlist-add", 0.70)
    ∧ predict_user_event 0.75 [PERSONA_ACTIVE_TRADER] = ("order-created", 0.85)
    ∧ recommend_system_action 0.6 "watchlist-add" =
        ("WATCHLIST_SUGGESTION", "IN_APP_BANNER", 0.70, NbaReason.suggestWatchlist) := by
  refine ⟨?_, ?_, ?_⟩
  · norm_num [predict_user_event]
  · norm_num [predict_user_event]
  · have h1 : ¬("watchlist-add" = "order-created") := by decide
    have h2 : ¬("watchlist-add" = "ticker-view") := by decide
    simp [recommend_system_action, h1, h2]

/-- C3 amended: the execution-type branch starts at score 0.7, not 0.5: for
every score at least 0.7 and persona set containing the high-frequency
persona, the predicted event is "order-created" with probability at least
0.85 (exactly 0.95 once the score is at least 0.9), and the prescribed action
for "order-created" is the strong-intent nudge STRONG_BUY_ALERT on the
PUSH_NOTIFICATION channel. -/
theorem c3_execution_branch (score : ℝ) (personas : List String)
    (hp : PERSONA_ACTIVE_TRADER ∈ personas) :
    (score ≥ 0.7 →
        (predict_user_event score personas).1 = "order-created"
        ∧ (predict_user_event score personas).2 ≥ 0.85) ∧
    (score ≥ 0.9 → predict_user_event score personas = ("order-created", 0.95)) ∧
    (∀ s : ℝ, recommend_system_action s "order-created" =
        ("STRONG_BUY_ALERT", "PUSH_NOTIFICATION", 0.95, NbaReason.nudgeOrder)) := by
  refine ⟨fun h7 => ?_, fun h9 => ?_, fun s => ?_⟩
  · by_cases h9 : score ≥ 0.9
    · simp [predict_user_event, h7, h9, hp]
      norm_num
    · simp [predict_user_event, h7, h9, hp]
  · have h7 : score ≥ 0.7 := le_trans (by norm_num) h9
    simp [predict_user_event, h7, h9, hp]
  · simp [recommend_system_action]

/-- C3 witness: score 1 with the persona predicts ("order-created", 0.95),
and the prescriptive row for "order-created" is the push nudge. -/
theorem c3_execution_branch_witness :
    predict_user_event 1 [PERSONA_ACTIVE_TRADER] = ("order-created", 0.95)
    ∧ recommend_system_action 1 "order-created" =
        ("STRONG_BUY_ALERT", "PUSH_NOTIFICATION", 0.95, NbaReason.nudgeOrder) := by
  have h := c3_execution_branch 1 [PERSONA_ACTIVE_TRADER] (by simp)
  exact ⟨h.2.1 (by norm_num), h.2.2 1⟩

/-- C4: for every score in [0, 1) and every persona set the Predictive Engine
returns exactly one (event, probability) pair — it is a total function — with
probability strictly positive and at most 1, its event lies in the five-value
range, and on every event of that range the Prescriptive Engine returns
exactly one determinate (action, channel, confidence, reason) quadruple. -/
theorem c4_decision_tables_total (score : ℝ) (personas : List String)
    (_h0 : 0 ≤ score) (_h1 : score < 1) :
    (0 < (predict_user_event score personas).2
      ∧ (predict_user_event score personas).2 ≤ 1) ∧
    (predict_user_event score personas).1 ∈
      (["order-created", "ticker-view", "watchlist-add", "search",
        "ignore-content"] : List String) ∧
    (∀ s : ℝ,
      recommend_system_action s "order-created" =
        ("STRONG_BUY_ALERT", "PUSH_NOTIFICATION", 0.95, NbaReason.nudgeOrder) ∧
      recommend_system_action s "ticker-view" =
        ("SEND_ANALYST_REPORT", "EMAIL_DIGEST", 0.85, NbaReason.sendReport) ∧
      recommend_system_action s "watchlist-add" =
        ("WATCHLIST_SUGGESTION", "IN_APP_BANNER", 0.70, NbaReason.suggestWatchlist) ∧
      recommend_system_action s "search" =
        ("DISCOVERY_NUDGE", "IN_APP_FEED", 0.50, NbaReason.discoveryNudge) ∧
      recommend_system_action s "ignore-content" =
        ("WAIT", "NONE", 0, NbaReason.scoreTooLow s)) := by
  refine ⟨?_, ?_, fun s => ?_⟩
  · simp only [predict_user_event]
    split_ifs <;> norm_num
  · simp only [predict_user_event]
    split_ifs <;> simp
  · refine ⟨by simp [recommend_system_action], ?_, ?_, ?_, ?_⟩
    · have h1 : ¬("ticker-view" = "order-created") := by decide
      simp [recommend_system_action, h1]
    · have h1 : ¬("watchlist-add" = "order-created") := by decide
      have h2 : ¬("watchlist-add" = "ticker-view") := by decide
      simp [recommend_system_action, h1, h2]
    · have h1 : ¬("search" = "order-created") := by decide
      have h2 : ¬("search" = "ticker-view") := by decide
      have h3 : ¬("search" = "watchlist-add") := by decide
      simp [recommend_system_action, h1, h2, h3]
    · have h1 : ¬("ignore-content" = "order-created") := by decide
      have h2 : ¬("ignore-content" = "ticker-view") := by decide
      have h3 : ¬("ignore-content" = "watchlist-add") := by decide
      have h4 : ¬("ignore-content" = "search") := by decide
      simp [recommend_system_action, h1, h2, h3, h4]
      norm_num

/-- C4 witness: at score 0.3 with no personas, the predicted probability is
strictly positive and at most 1. -/
theorem c4_decision_tables_total_witness :
    0 < (predict_user_event 0.3 []).2 ∧ (predict_user_event 0.3 []).2 ≤ 1 :=
  (c4_decision_tables_total 0.3 [] (by norm_num) (by norm_num)).1

/-- C5 counterexample: a predicted event matching no rule of the decision
table ("totally-unknown-event") is mapped to the normal quadruple
("WAIT", "NONE", 0, reason) by the unconditional final return — the engine
silently defaults instead of raising a DecisionTableGapError-style error. -/
theorem c5_counterexample :
    recommend_system_action 0.5 "totally-unknown-event" =
      ("WAIT", "NONE", 0, NbaReason.scoreTooLow 0.5) := by
  have h1 : ¬("totally-unknown-event" = "order-created") := by decide
  have h2 : ¬("totally-unknown-event" = "ticker-view") := by decide
  have h3 : ¬("totally-unknown-event" = "watchlist-add") := by decide
  have h4 : ¬("totally-unknown-event" = "search") := by decide
  simp [recommend_system_action, h1, h2, h3, h4]
  norm_num

/-- C5 amended: the Prescriptive Engine never raises on an unmatched
predicted event: every event outside the four matched values falls through
to the catch-all and returns the normal default quadruple
("WAIT", "NONE", 0, reason recording the score). -/
theorem c5_unknown_event_defaults (e : String) (s : ℝ)
    (h : e ∉ (["order-created", "ticker-view", "watchlist-add", "search"] : List String)) :
    recommend_system_action s e = ("WAIT", "NONE", 0, NbaReason.scoreTooLow s) := by
  simp only [List.mem_cons, List.not_mem_nil, or_false] at h
  push_neg at h
  obtain ⟨h1, h2, h3, h4⟩ := h
  simp [recommend_system_action, h1, h2, h3, h4]
  norm_num

/-- C5 witness: the event "bogus" silently yields the WAIT default at
score 1. -/
theorem c5_unknown_event_defaults_witness :
    recommend_system_action 1 "bogus" = ("WAIT", "NONE", 0, NbaReason.scoreTooLow 1) :=
  c5_unknown_event_defaults "bogus" 1 (by decide)

/-- C10: the Predictive Engine is total over every real score: any score
below 0.1 — negative scores included — lands in the disengagement branch
("ignore-content", 0.90), and any score of 1.0 or greater lands in the
high-intent branch with probability 0.95; no score reaches a missing branch. -/
theorem c10_predictive_total (score : ℝ) (personas : List String) :
    (score < 0.1 → predict_user_event score personas = ("ignore-content", 0.90)) ∧
    (score ≥ 1 → predict_user_event score personas =
      ((if PERSONA_ACTIVE_TRADER ∈ personas then "order-created" else "ticker-view"),
        0.95)) := by
  constructor
  · intro h
    have h7 : ¬(score ≥ 0.7) := not_le.mpr (h.trans_le (by norm_num))
    have h5 : ¬(score ≥ 0.5) := not_le.mpr (h.trans_le (by norm_num))
    have h1 : ¬(score ≥ 0.1) := not_le.mpr h
    simp [predict_user_event, h7, h5, h1]
  · intro h
    have h7 : score ≥ 0.7 := le_trans (by norm_num) h
    have h9 : score ≥ 0.9 := le_trans (by norm_num) h
    by_cases hp : PERSONA_ACTIVE_TRADER ∈ personas
    · simp [predict_user_event, h7, h9, hp]
    · simp [predict_user_event, h7, h9, hp]

/-- C10 witness: a negative score yields the disengagement pair, and score
1.5 with the persona yields ("order-created", 0.95). -/
theorem c10_predictive_total_witness :
    predict_user_event (-1) [] = ("ignore-content", 0.90)
    ∧ predict_user_event 1.5 [PERSONA_ACTIVE_TRADER] = ("order-created", 0.95) := by
  constructor
  · exact (c10_predictive_total (-1) []).1 (by norm_num)
  · have h := (c10_predictive_total 1.5 [PERSONA_ACTIVE_TRADER]).2 (by norm_num)
    simpa using h

/-- C6 counterexample: when tenant/cohort resolution fails, the batch job
completes normally — no exception reaches the caller (raised = none, the
except clause only rolls back and logs) and no integer row count is returned
(the Python function returns None) — contradicting the claim that it returns
a count and raises NotFoundError. -/
theorem c6_counterexample :
    (run_batch_scoring_job (Except.error "Tenant not found") (fun _ => []) true []).raised
      = none
    ∧ (run_batch_scoring_job (Except.error "Tenant not found") (fun _ => []) true []).returned
      = none :=
  ⟨rfl, rfl⟩

/-- C6 amended: the batch entry point returns no row count and never
propagates an error: resolution failures and persistence failures are caught
by the catch-all except clause, which rolls the transaction back (leaving the
store at its pre-run state) and logs, after which the function completes
normally. -/
theorem c6_swallows_errors (resolve_result : Except String (String × String))
    (fetch : String → List BatchEntry) (persist_ok : Bool) (store : Store) :
    (run_batch_scoring_job resolve_result fetch persist_ok store).raised = none
    ∧ (run_batch_scoring_job resolve_result fetch persist_ok store).returned = none
    ∧ (∀ msg, resolve_result = Except.error msg →
        (run_batch_scoring_job resolve_result fetch persist_ok store).store = store)
    ∧ (persist_ok = false →
        (run_batch_scoring_job resolve_result fetch persist_ok store).store = store) := by
  rcases resolve_result with msg | ids
  · exact ⟨rfl, rfl, fun _ _ => rfl, fun _ => rfl⟩
  · obtain ⟨t, s⟩ := ids
    refine ⟨?_, ?_, ?_, fun hp => ?_⟩
    · simp only [run_batch_scoring_job]
      split_ifs <;> rfl
    · simp only [run_batch_scoring_job]
      split_ifs <;> rfl
    · intro msg h
      exact Except.noConfusion h
    · subst hp
      simp only [run_batch_scoring_job]
      split_ifs <;> first | rfl | contradiction

/-- C6 witness: a concrete failing resolution leaves the store untouched and
surfaces nothing to the caller. -/
theorem c6_swallows_errors_witness :
    (run_batch_scoring_job (Except.error "boom") (fun _ => []) false []).raised = none
    ∧ (run_batch_scoring_job (Except.error "boom") (fun _ => []) false []).store = [] := by
  have h := c6_swallows_errors (Except.error "boom") (fun _ => []) false []
  exact ⟨h.1, h.2.2.1 "boom" rfl⟩

/-- C7: for non-negative raw scores the normalization raw / (raw + 100) lies
in [0, 1), is strictly increasing, and the batch write always stores the
interest score recomputed from the raw score it stores — never an
independent value. -/
theorem c7_normalization_bound (raw : ℝ) (h : 0 ≤ raw) :
    (0 ≤ normalizeScore raw ∧ normalizeScore raw < 1)
    ∧ (∀ b : ℝ, raw < b → normalizeScore raw < normalizeScore b)
    ∧ (∀ (tenant_uuid : String) (store : Store) (entry : BatchEntry),
        interestAt (processEntry tenant_uuid store entry) (entryKey tenant_uuid entry) =
          (rawAt (processEntry tenant_uuid store entry)
            (entryKey tenant_uuid entry)).map normalizeScore) := by
  have hK : (0 : ℝ) < SCORING_K_FACTOR := by norm_num [SCORING_K_FACTOR]
  have hpos : 0 < raw + SCORING_K_FACTOR := by linarith
  refine ⟨⟨?_, ?_⟩, fun b hb => ?_, fun t s e => ?_⟩
  · exact div_nonneg h hpos.le
  · rw [normalizeScore, div_lt_one hpos]
    linarith
  · have hbpos : 0 < b + SCORING_K_FACTOR := by linarith
    rw [normalizeScore, normalizeScore, div_lt_div_iff₀ hpos hbpos]
    nlinarith
  · simp only [interestAt, rawAt, findRecord_processEntry_self, Option.bind, Option.map]

/-- C7 witness: raw 100 gives an interest score in [0, 1) and raw 200 a
strictly larger one. -/
theorem c7_normalization_bound_witness :
    (0 ≤ normalizeScore 100 ∧ normalizeScore 100 < 1)
    ∧ normalizeScore 100 < normalizeScore 200 := by
  have h := c7_normalization_bound 100 (by norm_num)
  exact ⟨h.1, h.2.1 200 (by norm_num)⟩

/-- The GC keep-predicate, characterized: a row survives the DELETE iff its
interest score (when present) is at least the retention threshold. -/
theorem gcKeeps_iff (row : RecRow) :
    gcKeeps row = true ↔ ∀ v, row.interest_score = some v → SCORE_THRESHOLD ≤ v := by
  cases h : row.interest_score with
  | none => simp [gcKeeps, h]
  | some v => simp [gcKeeps, h, not_lt]

/-- C8: after a GC pass, no remaining record has an interest score strictly
below the retention threshold; every record the pass removed had an interest
score strictly below the threshold; records at or above the threshold remain,
unchanged and in order (the GC output is a sublist of the input). -/
theorem c8_gc_correct (store : Store) :
    (∀ kr ∈ run_garbage_collection store,
        ∀ v, kr.2.interest_score = some v → SCORE_THRESHOLD ≤ v)
    ∧ (∀ kr ∈ store, kr ∉ run_garbage_collection store →
        ∃ v, kr.2.interest_score = some v ∧ v < SCORE_THRESHOLD)
    ∧ (∀ kr ∈ store, (∀ v, kr.2.interest_score = some v → SCORE_THRESHOLD ≤ v) →
        kr ∈ run_garbage_collection store)
    ∧ (run_garbage_collection store).Sublist store := by
  refine ⟨?_, ?_, ?_, List.filter_sublist store⟩
  · intro kr hkr
    exact (gcKeeps_iff kr.2).mp (List.mem_filter.mp hkr).2
  · intro kr hin hnot
    have hk : ¬ gcKeeps kr.2 = true := fun hg => hnot (List.mem_filter.mpr ⟨hin, hg⟩)
    cases hcase : kr.2.interest_score with
    | none => exact absurd ((gcKeeps_iff kr.2).mpr (by simp [hcase])) hk
    | some v =>
      refine ⟨v, rfl, ?_⟩
      by_contra hge
      refine hk ((gcKeeps_iff kr.2).mpr (fun w hw => ?_))
      rw [hcase] at hw
      injection hw with hvw
      subst hvw
      exact not_lt.mp hge
  · intro kr hin hbound
    exact List.mem_filter.mpr ⟨hin, (gcKeeps_iff kr.2).mpr hbound⟩

/-- C8 witness: a record with interest score 0.5 survives a GC pass over a
singleton store. -/
theorem c8_gc_correct_witness :
    (⟨⟨"t", "p", "X", "j", "s", "m"⟩, ⟨some 200, some 0.5, some 0⟩⟩ : RecKey × RecRow) ∈
      run_garbage_collection
        [⟨⟨"t", "p", "X", "j", "s", "m"⟩, ⟨some 200, some 0.5, some 0⟩⟩] := by
  refine (c8_gc_correct _).2.2.1 _ (List.mem_singleton.mpr rfl) ?_
  intro v hv
  have hv2 : some (0.5 : ℝ) = some v := hv
  injection hv2 with h2
  subst h2
  norm_num [SCORE_THRESHOLD]

/-- C9: an event whose subject attribute (eventData.instrument_id) is absent,
null, or the empty string is excluded from aggregation entirely: prepending
such an event to the scanned event collection leaves the aggregated output
unchanged — it contributes to no (profile, subject) aggregate and creates no
zero-weight record — and the exclusion is silent (the aggregator still
returns a normal result, not an error). -/
theorem c9_subject_excluded (start_time end_time : ℝ) (segment_id : String)
    (e : TrackingEvent) (events : List TrackingEvent) (profiles : List CdpProfile)
    (metrics : List EventMetric)
    (h : e.instrument_id = AttrVal.missing ∨ e.instrument_id = AttrVal.null
        ∨ e.instrument_id = AttrVal.str "") :
    get_batch_scoring_data start_time end_time segment_id (e :: events) profiles metrics
      = get_batch_scoring_data start_time end_time segment_id events profiles metrics := by
  have hq : ¬ eventQualifies start_time end_time e := by
    intro hqq
    unfold eventQualifies subjectPresent at hqq
    obtain ⟨-, -, s, hs, hne⟩ := hqq
    rcases h with h | h | h <;> rw [h] at hs
    · cases hs
    · cases hs
    · injection hs with h2
      exact hne h2.symm
  unfold get_batch_scoring_data joinedRows
  simp [List.filter_cons, hq]

/-- C9 witness: a concrete event with a null subject attribute aggregates to
the same output as no event at all. -/
theorem c9_subject_excluded_witness :
    get_batch_scoring_data 0 10 "seg" [⟨5, "fp", "view", AttrVal.null⟩] [] []
      = get_batch_scoring_data 0 10 "seg" [] [] [] :=
  c9_subject_excluded 0 10 "seg" ⟨5, "fp", "view", AttrVal.null⟩ [] [] []
    (Or.inr (Or.inl rfl))

end

